import Mathlib

/-!
Shallow embedding of the feature-import / chunked-read core of the
WebViewer-V2 backend (src/layers/models.py, src/layers/views.py,
src/layers/file_utils.py, src/layers/utils.py), together with proofs
settling the specification claims about it.

Conventions of the embedding:
* Python scalars are a tagged union `PVal`; floats keep an explicit
  NaN/inf tag (`PyFloat`), coordinates are rationals.
* The database rows of one layer are a list of `Feature` in insertion
  order; a request handler is a pure function from a state to a
  (state, response) pair, with Django/Python control flow (try/except,
  early `return`, `transaction.atomic`) translated into explicit
  case analysis.
* Fallible steps (file reads, geometry parses) are `Except`/`Option`
  valued inputs, so that an exception raised by a library call is a
  constructor, not an effect.
-/

set_option autoImplicit false

namespace WebGis

/-- A Python float: either a finite rational, NaN, or a signed infinity. -/
inductive PyFloat where
  | finite (q : ℚ)
  | nan
  | inf (neg : Bool)
  deriving DecidableEq

/-- A JSON-level Python scalar as it appears in a feature property bag or a
GeoJSON document (null / bool / int / float / string). -/
inductive PVal where
  | null
  | bool (b : Bool)
  | int (n : ℤ)
  | float (v : PyFloat)
  | str (s : String)
  deriving DecidableEq

/-- Python truthiness of a scalar (`bool(v)`): None, False, 0, 0.0 and the
empty string are falsy, everything else (including NaN) is truthy. -/
def truthy : PVal → Bool
  | .null => false
  | .bool b => b
  | .int n => n ≠ 0
  | .float v => v ≠ .finite 0
  | .str s => s ≠ ""

/-- Truthiness of `dict.get` output: `None` (absent key) is falsy. -/
def truthyOpt : Option PVal → Bool
  | none => false
  | some v => truthy v

/-- Python `a or b` on optional scalars (`dict.get` results): yields `a`
when `a` is present and truthy, otherwise `b`. -/
def pyOr (a b : Option PVal) : Option PVal :=
  match a with
  | some v => if truthy v then some v else b
  | none => b

/-- Association-list lookup, modelling `dict.get(key)` on a JSON object. -/
def lookupProp (props : List (String × PVal)) (k : String) : Option PVal :=
  (props.find? (fun kv => kv.1 = k)).map (fun kv => kv.2)

/-- A 2-D coordinate (rationals stand in for the float coordinates). -/
structure Pt where
  x : ℚ
  y : ℚ
  deriving DecidableEq

/-- A GEOS-level geometry value as stored in the `geometry` column:
point / line / polygon and their multi-variants. -/
inductive Geom where
  | point (p : Pt)
  | lineString (ps : List Pt)
  | polygon (rings : List (List Pt))
  | multiPoint (ps : List Pt)
  | multiLineString (ls : List (List Pt))
  | multiPolygon (polys : List (List (List Pt)))
  deriving DecidableEq

/-- All coordinates of a geometry, flattened. -/
def Geom.coords : Geom → List Pt
  | .point p => [p]
  | .lineString ps => ps
  | .polygon rings => rings.flatten
  | .multiPoint ps => ps
  | .multiLineString ls => ls.flatten
  | .multiPolygon polys => (polys.map List.flatten).flatten

/-- An axis-aligned rectangle, the value of the `bbox` polygon column. -/
structure Box where
  minx : ℚ
  miny : ℚ
  maxx : ℚ
  maxy : ℚ
  deriving DecidableEq

/-- Membership of a coordinate in a box. -/
def Box.contains (b : Box) (p : Pt) : Prop :=
  b.minx ≤ p.x ∧ p.x ≤ b.maxx ∧ b.miny ≤ p.y ∧ p.y ≤ b.maxy

instance (b : Box) (p : Pt) : Decidable (b.contains p) := by
  unfold Box.contains; infer_instance

/-- Fold step extending a box to cover one more coordinate. -/
def boxExtend (b : Box) (p : Pt) : Box :=
  ⟨min b.minx p.x, min b.miny p.y, max b.maxx p.x, max b.maxy p.y⟩

/-- Extend a starting box to cover a list of coordinates. -/
def envelopeAux (init : Box) (ps : List Pt) : Box :=
  ps.foldl boxExtend init

/-- The axis-aligned envelope of a geometry (`geometry.envelope`).
GEOS never takes the envelope of an empty geometry in the modelled code
paths; the empty case is given a degenerate box at the origin. -/
def Geom.envelope (g : Geom) : Box :=
  match g.coords with
  | [] => ⟨0, 0, 0, 0⟩
  | p :: rest => envelopeAux ⟨p.x, p.y, p.x, p.y⟩ rest

/-- The half-width of the synthetic bounding box for point geometries
(`buffer = 0.0001` in `ProjectLayerData.save`). -/
def pointBuffer : ℚ := 1 / 10000

/-- The bounding box computed by `ProjectLayerData.save`: a small square
centred on a point geometry, the axis-aligned envelope otherwise. -/
def computeBbox (g : Geom) : Box :=
  match g with
  | .point p => ⟨p.x - pointBuffer, p.y - pointBuffer, p.x + pointBuffer, p.y + pointBuffer⟩
  | _ => g.envelope

/-- One persisted row of `project_layer_data_wiroi_online`
(`ProjectLayerData`): geometry, property bag, external feature id, and the
optional bounding-box column. -/
structure Feature where
  geometry : Geom
  properties : List (String × PVal)
  feature_id : Option PVal
  bbox : Option Box
  deriving DecidableEq

/-- The fresh value `str(uuid.uuid4())` drawn from a counter. -/
def uuidName (n : ℕ) : String := "uuid-" ++ toString n

/-- `ProjectLayerData.save` before the row is written: generates a
`feature_id` when the current one is falsy, and fills in `bbox` from the
geometry when no bounding box was supplied.  A caller-supplied `bbox` is
left untouched. -/
def featureSave (freshId : String) (f : Feature) : Feature :=
  let f1 := if truthyOpt f.feature_id then f else { f with feature_id := some (.str freshId) }
  if f1.bbox.isNone then { f1 with bbox := some (computeBbox f1.geometry) } else f1

/-- The fields of `ProjectLayer` the modelled code paths read or write. -/
structure Layer where
  type_name : Option String
  feature_count : ℕ
  last_data_update : ℕ
  upload_status : String
  upload_error : Option String
  is_public : Bool
  deriving DecidableEq

/-- The state of one layer and its persisted feature rows, in insertion
order, together with the sources of fresh uuids and of `timezone.now()`. -/
structure LayerState where
  layer : Layer
  features : List Feature
  nextUuid : ℕ
  clock : ℕ
  deriving DecidableEq

/-- `ProjectLayer.update_feature_count`: recount the persisted rows and
stamp `last_data_update`. -/
def update_feature_count (st : LayerState) : LayerState :=
  { st with layer := { st.layer with
      feature_count := st.features.length
      last_data_update := st.clock } }

/-- `ProjectLayerData.objects.create(...)`: build the row, run
`ProjectLayerData.save` (id/bbox derivation), append it, and let the
model's save hook recount the layer's features. -/
def createFeatureRow (st : LayerState) (g : Geom) (props : List (String × PVal))
    (fid : Option PVal) : LayerState :=
  let f := featureSave (uuidName st.nextUuid)
      { geometry := g, properties := props, feature_id := fid, bbox := none }
  update_feature_count
    { st with features := st.features ++ [f], nextUuid := st.nextUuid + 1 }

/-- `ProjectLayerDataViewSet.perform_destroy`: delete the row at an index,
then refresh the layer statistics. -/
def destroyFeature (st : LayerState) (i : ℕ) : LayerState :=
  update_feature_count { st with features := st.features.eraseIdx i }

/-- `ProjectLayerViewSet.clear_data`: delete every row, zero the count. -/
def clear_data (st : LayerState) : LayerState :=
  { st with
    features := []
    layer := { st.layer with feature_count := 0, last_data_update := st.clock } }

/-! ## Direct GeoJSON import (`ProjectLayerViewSet.import_geojson`) -/

/-- One entry of the `features` array of an inbound GeoJSON document.
`id`/`properties` are `none` when the key is absent; `geometry` is `none`
when the member is absent or `null` (in which case
`GEOSGeometry(json.dumps(...))` raises). -/
structure GJFeature where
  id : Option PVal
  geometry : Option Geom
  properties : Option (List (String × PVal))
  deriving DecidableEq

/-- An inbound GeoJSON document: its `type` member and `features` array
(`geojson_data.get('features', [])`). -/
structure GJDoc where
  typeName : String
  features : List GJFeature
  deriving DecidableEq

/-- `feature.get('properties', {})`: defaults to the empty mapping when
the key is absent. -/
def decodeProperties (f : GJFeature) : List (String × PVal) :=
  f.properties.getD []

/-- `feature.get('id') or properties.get('id')`: Python `or`, so a falsy
top-level id falls through to the property bag. -/
def decodeFeatureId (f : GJFeature) : Option PVal :=
  pyOr f.id (lookupProp (decodeProperties f) "id")

/-- The message of the per-feature `except` branch of `import_geojson`
when `GEOSGeometry` cannot parse the feature's geometry. -/
def geomParseFailMsg : String :=
  "Error importing feature: could not parse geometry"

/-- The response body of `import_geojson`: either the success payload
(`features_imported`, `total_features`) or an HTTP 400. -/
inductive ImportGeoJSONResult where
  | ok (features_imported : ℕ) (total_features : ℕ)
  | badRequest (msg : String)
  deriving DecidableEq

/-- The per-feature loop of `import_geojson`.  A feature whose geometry
fails to parse makes the handler return a 400 immediately (`return`
inside `with transaction.atomic()` commits the rows already created). -/
def importLoop : LayerState → ℕ → List GJFeature → LayerState × Except String ℕ
  | st, created, [] => (st, .ok created)
  | st, created, f :: rest =>
    match f.geometry with
    | none => (st, .error geomParseFailMsg)
    | some g =>
      let props := decodeProperties f
      let fid := decodeFeatureId f
      importLoop (createFeatureRow st g props fid) (created + 1) rest

/-- `ProjectLayerViewSet.import_geojson`: validate the `type` member,
create one row per feature, and on full success refresh the layer's
statistics and answer with the import tally. -/
def import_geojson (st : LayerState) (doc : GJDoc) : LayerState × ImportGeoJSONResult :=
  if doc.typeName ≠ "FeatureCollection" then
    (st, .badRequest "Invalid GeoJSON: Not a FeatureCollection")
  else
    match importLoop st 0 doc.features with
    | (st1, .error e) => (st1, .badRequest e)
    | (st1, .ok created) =>
      let st2 := update_feature_count st1
      (st2, .ok created st2.layer.feature_count)

/-! ## Chunked read (`LayerDataView`) -/

/-- Python `str.lower()` (character-wise; kernel-reducible, unlike
`String.toLower`). -/
def pyLower (s : String) : String := String.mk (s.data.map Char.toLower)

/-- `LayerDataView._get_chunk_size_for_layer`: chunk size from the
layer's type classifier (500 for polygons, 2000 for lines, 10000
otherwise, including layers with no type). -/
def getChunkSizeForLayer (layer : Layer) : ℕ :=
  match layer.type_name with
  | none => 10000
  | some tn =>
    let t := pyLower tn
    if t = "polygon" ∨ t = "multipolygon" then 500
    else if t = "line" ∨ t = "linestring" ∨ t = "multilinestring" then 2000
    else 10000

/-- The message of the `ValueError` Django raises when a queryset is
sliced with a negative bound. -/
def negIdxMsg : String := "Negative indexing is not supported."

/-- Django queryset slicing `qs[start:stop]`: raises for a negative
bound, otherwise takes the half-open slice. -/
def qsSlice (l : List Feature) (start stop : ℤ) : Except String (List Feature) :=
  if start < 0 ∨ stop < 0 then .error negIdxMsg
  else .ok ((l.take stop.toNat).drop start.toNat)

/-- One encoded GeoJSON output feature: the `id` member is added only
when `feature.feature_id` is truthy. -/
structure GJOutFeature where
  geometry : Geom
  properties : List (String × PVal)
  id : Option PVal
  deriving DecidableEq

/-- Encoding of one stored row into the response's feature object. -/
def encodeFeature (f : Feature) : GJOutFeature :=
  { geometry := f.geometry
    properties := f.properties
    id := if truthyOpt f.feature_id then f.feature_id else none }

/-- The `chunk_info` object of the chunked response; `next_chunk` is
present only when more chunks remain. -/
structure ChunkInfo where
  chunk_id : ℤ
  features_count : ℕ
  total_count : ℕ
  next_chunk : Option ℤ
  deriving DecidableEq

/-- The body of a successful chunked read. -/
structure ChunkBody where
  features : List GJOutFeature
  chunk_info : ChunkInfo
  deriving DecidableEq

/-- The HTTP outcome of `LayerDataView.get`.  `serverError` is an
exception that escapes the handler (only `ProjectLayer.DoesNotExist` is
caught) and surfaces as a 500. -/
inductive ChunkHttpResult where
  | ok (body : ChunkBody)
  | forbidden
  | badRequest (msg : String)
  | notFound
  | serverError (msg : String)
  deriving DecidableEq

/-- Whether a chunked-read outcome is the 400 class. -/
def ChunkHttpResult.isBadRequest : ChunkHttpResult → Bool
  | .badRequest _ => true
  | _ => false

/-- `LayerDataView.get`: look up the layer, gate unauthenticated access
on `is_public`, parse `chunk_id` (`none` models a string `int()` rejects),
slice the features and build the annotated FeatureCollection.

`ProjectLayerData` declares no `Meta.ordering` and the handler applies no
`order_by`, so `layer.features.all()` is an *unordered* queryset: each
request's slice query may enumerate the stored rows in any order.  `rows`
is the enumeration this request's query returns — in any execution it is
some permutation of the layer's persisted rows.  The separate `count()`
queries are SQL COUNTs and therefore order-independent: they return the
true row total. -/
def layerDataGetOrd (db : Option LayerState) (rows : List Feature)
    (isAuthenticated : Bool) (chunkArg : Option ℤ) : ChunkHttpResult :=
  match db with
  | none => .notFound
  | some st =>
    if ¬ isAuthenticated ∧ ¬ st.layer.is_public then .forbidden
    else
      match chunkArg with
      | none => .badRequest "Invalid chunk_id"
      | some chunk_id =>
        let chunk_size := getChunkSizeForLayer st.layer
        let start_idx : ℤ := (chunk_id - 1) * chunk_size
        let end_idx : ℤ := start_idx + chunk_size
        match qsSlice rows start_idx end_idx with
        | .error e => .serverError e
        | .ok feats =>
          let total := st.features.length
          let total_chunks := (total + chunk_size - 1) / chunk_size
          let next : Option ℤ :=
            if chunk_id < (total_chunks : ℤ) then some (chunk_id + 1) else none
          .ok
            { features := feats.map encodeFeature
              chunk_info :=
                { chunk_id := chunk_id
                  features_count := feats.length
                  total_count := total
                  next_chunk := next } }

/-- `LayerDataView.get` in the special case where the database happens to
enumerate the queryset in insertion order.  Outcomes that do not depend
on row order (permission gate, chunk-id validation, the negative-slice
error) are faithfully described by this instance. -/
def layerDataGet (db : Option LayerState) (isAuthenticated : Bool)
    (chunkArg : Option ℤ) : ChunkHttpResult :=
  layerDataGetOrd db
    (match db with | some st => st.features | none => []) isAuthenticated chunkArg

/-- The slice of rows that chunk `k` (1-based) serves when this request's
query enumerates the rows as `rows`. -/
def chunkSliceOrd (st : LayerState) (rows : List Feature) (k : ℕ) : List Feature :=
  (rows.drop ((k - 1) * getChunkSizeForLayer st.layer)).take
    (getChunkSizeForLayer st.layer)

/-- The chunk-`k` slice under the insertion-order enumeration. -/
def chunkSlice (st : LayerState) (k : ℕ) : List Feature :=
  chunkSliceOrd st st.features k

/-- `ceil(N/S)`: the total chunk count the handler computes. -/
def ceilChunks (st : LayerState) : ℕ :=
  (st.features.length + getChunkSizeForLayer st.layer - 1) / getChunkSizeForLayer st.layer

/-! ## File import (`file_utils.import_file_to_layer`) -/

/-- A raw column value of a GeoDataFrame row: numpy scalars (which have
an `item()` method) and plain Python values. -/
inductive SrcVal where
  | npFloat (v : PyFloat)
  | npInt (n : ℤ)
  | npBool (b : Bool)
  | pyFloat (v : PyFloat)
  | pyInt (n : ℤ)
  | pyBool (b : Bool)
  | pyStr (s : String)
  | pyNone
  deriving DecidableEq

/-- The per-value step of `import_file_to_layer`:
`value.item() if hasattr(value, 'item') else value`.  `item()` unwraps a
numpy scalar to the underlying Python value; everything else is stored
unchanged. -/
def convertValue : SrcVal → PVal
  | .npFloat v => .float v
  | .npInt n => .int n
  | .npBool b => .bool b
  | .pyFloat v => .float v
  | .pyInt n => .int n
  | .pyBool b => .bool b
  | .pyStr s => .str s
  | .pyNone => .null

/-- The CRS object of a GeoDataFrame (`gdf.crs`): its string form, its
`to_authority()` pair when resolvable, and its `name`. -/
structure CrsInfo where
  descriptor : String
  authority : Option (String × String)
  name : String
  deriving DecidableEq

/-- The CRS object pyproj builds from a bare descriptor string (used when
the code assigns `gdf.crs = source_crs`). -/
def strCrs (s : String) : CrsInfo := ⟨s, none, s⟩

/-- One GeoDataFrame row: its geometry (`none` models a missing/None
geometry, on which `row.geometry.wkt` raises) and its non-geometry
column values. -/
structure SrcRow where
  geometry : Option Geom
  values : List (String × SrcVal)
  deriving DecidableEq

/-- A decoded GeoDataFrame: column names (including `geometry`), the
declared CRS if any, and the rows. -/
structure GDF where
  columns : List String
  crs : Option CrsInfo
  rows : List SrcRow
  deriving DecidableEq

/-- `row[col]` for a non-geometry column. -/
def rowVal (r : SrcRow) (c : String) : SrcVal :=
  (((r.values.find? (fun kv => kv.1 = c)).map (fun kv => kv.2))).getD .pyNone

/-- The per-row body of the import loop: rows whose geometry raises are
skipped (`continue`); otherwise a `ProjectLayerData` object is built (not
saved) with the converted non-geometry columns as properties. -/
def rowToFeature (cols : List String) (r : SrcRow) : Option Feature :=
  match r.geometry with
  | none => none
  | some g =>
    some
      { geometry := g
        properties := (cols.filter (fun c => c ≠ "geometry")).map
            (fun c => (c, convertValue (rowVal r c)))
        feature_id := none
        bbox := none }

/-- Terminal outcome of `import_file_to_layer`:
`(success, features_count, error)`. -/
inductive ImportFileResult where
  | ok (count : ℕ)
  | failed (msg : String)
  deriving DecidableEq

/-- The CRS-selection step of `import_file_to_layer`: a truthy
`source_crs` is assigned only when the file declares none. -/
def resolveCrs (gdfCrs : Option CrsInfo) (source_crs : Option String) : Option CrsInfo :=
  match gdfCrs, source_crs with
  | none, some s => if s ≠ "" then some (strCrs s) else none
  | c, _ => c

/-- `file_utils.import_file_to_layer`.  `gdfRead` is the outcome of the
geopandas read (an exception is caught by the outer `except`, which marks
the layer failed).  After CRS resolution/reprojection the decoded rows
are persisted with `bulk_create` — which appends the rows as built,
without running `ProjectLayerData.save` — and the layer's count is set to
the number of rows imported. -/
def import_file_to_layer (st : LayerState) (gdfRead : Except String GDF)
    (source_crs : Option String) (target_crs : String) (reproj : Geom → Geom) :
    LayerState × ImportFileResult :=
  match gdfRead with
  | .error e =>
    ({ st with layer :=
        { st.layer with upload_status := "failed", upload_error := some e } },
      .failed e)
  | .ok gdf =>
    match resolveCrs gdf.crs source_crs with
    | none =>
      let msg := "No CRS defined in file and none provided"
      ({ st with layer :=
          { st.layer with upload_status := "failed", upload_error := some msg } },
        .failed msg)
    | some c =>
      let rows :=
        if c.descriptor ≠ target_crs then
          gdf.rows.map (fun r => { r with geometry := r.geometry.map reproj })
        else gdf.rows
      let feats := rows.filterMap (rowToFeature gdf.columns)
      ({ st with
          features := st.features ++ feats
          layer :=
            { st.layer with
              feature_count := feats.length
              last_data_update := st.clock
              upload_status := "complete" } },
        .ok feats.length)

/-! ## CRS discovery (`file_utils.get_crs_from_file`) and temp-dir
cleanup (`utils.extract_shapefile`) -/

/-- Decidable equality of `Except` values (needed so that concrete
counterexample states can be evaluated by `decide`). -/
instance {ε α : Type} [DecidableEq ε] [DecidableEq α] : DecidableEq (Except ε α) := fun a b =>
  match a, b with
  | .ok x, .ok y =>
    if h : x = y then .isTrue (congrArg Except.ok h)
    else .isFalse (fun hh => h (Except.ok.inj hh))
  | .error x, .error y =>
    if h : x = y then .isTrue (congrArg Except.error h)
    else .isFalse (fun hh => h (Except.error.inj hh))
  | .ok _, .error _ => .isFalse (fun hh => Except.noConfusion hh)
  | .error _, .ok _ => .isFalse (fun hh => Except.noConfusion hh)

/-- A zipped shapefile upload as `get_crs_from_file` sees it: whether
`extractall` succeeds, whether a `.shp` member exists, and the outcome of
reading it. -/
structure ZipFile where
  valid_zip : Bool
  has_shp : Bool
  read : Except String GDF
  deriving DecidableEq

/-- Input of `get_crs_from_file`: the zipped-shapefile branch (which uses
a scratch directory) or a direct read (plain `.shp`, `.kml`, `.sqlite`,
or an unsupported type string). -/
inductive CrsFileInput where
  | shpZip (z : ZipFile)
  | direct (file_type : String) (read : Except String GDF)
  deriving DecidableEq

/-- The message of the `FileNotFoundError` raised by `shutil.rmtree` on a
directory that was already removed. -/
def rmtreeMissingMsg : String := "No such file or directory: temp_dir"

/-- Observable trace of one `get_crs_from_file` call: the returned triple
`(crs_found, crs_auth_code, crs_name)`, how many times `shutil.rmtree`
ran on the scratch directory, whether a cleanup call itself raised, and
whether the directory is gone at the end. -/
structure CrsCheckTrace where
  result : Bool × Option String × String
  rmtree_calls : ℕ
  cleanup_raised : Bool
  dir_removed : Bool
  deriving DecidableEq

/-- The CRS inspection on a successfully read GeoDataFrame (the tail of
`get_crs_from_file`): no CRS / authority pair / raw descriptor. -/
def crsTriple (gdf : GDF) : Bool × Option String × String :=
  match gdf.crs with
  | none => (false, none, "No CRS defined in file")
  | some c =>
    match c.authority with
    | some (auth, code) => (true, some (auth ++ ":" ++ code), c.name)
    | none => (true, none, c.descriptor)

/-- `file_utils.get_crs_from_file`, with the temp-directory lifecycle of
the zip branch made explicit.  In that branch the `except` handler calls
`shutil.rmtree` and crafts a `return`, but the `finally` block calls
`rmtree` again: the second call raises `FileNotFoundError`, which
discards the pending return and is caught by the outer `except`, so the
caller sees `(False, None, str(FileNotFoundError))`. -/
def get_crs_from_file : CrsFileInput → CrsCheckTrace
  | .direct ft read =>
    if ft = "shp" ∨ ft = "kml" ∨ ft = "sqlite" then
      match read with
      | .error e => ⟨(false, none, e), 0, false, true⟩
      | .ok gdf => ⟨crsTriple gdf, 0, false, true⟩
    else ⟨(false, none, "Unsupported file type: " ++ ft), 0, false, true⟩
  | .shpZip z =>
    if ¬ z.valid_zip then
      ⟨(false, none, rmtreeMissingMsg), 2, true, true⟩
    else if ¬ z.has_shp then
      ⟨(false, none, "No .shp file found in zip archive"), 1, false, true⟩
    else
      match z.read with
      | .error _ => ⟨(false, none, rmtreeMissingMsg), 2, true, true⟩
      | .ok gdf => ⟨crsTriple gdf, 1, false, true⟩

/-- Trace of one `utils.extract_shapefile` call: outcome, and whether the
scratch directory was removed before returning. -/
structure ExtractTrace where
  ok : Bool
  dir_removed : Bool
  deriving DecidableEq

/-- `utils.extract_shapefile`: on any failure the directory is removed
once and the exception re-raised; on success the `.shp` path inside the
still-existing directory is returned (the caller owns the cleanup). -/
def extract_shapefile (valid_zip has_shp : Bool) : ExtractTrace :=
  if ¬ valid_zip then ⟨false, true⟩
  else if ¬ has_shp then ⟨false, true⟩
  else ⟨true, false⟩

/-! ## Complete-import step (`CompleteUploadView.post`) -/

/-- The HTTP outcome of `CompleteUploadView.post`. -/
inductive UploadResponse where
  | ok (feature_count : ℕ)
  | notFound (msg : String)
  | serverError (msg : String)
  deriving DecidableEq

/-- Whether the complete-upload response is the success payload. -/
def UploadResponse.isSuccess : UploadResponse → Bool
  | .ok _ => true
  | _ => false

/-- Observable outcome of one complete-upload call: the response, whether
`default_storage.delete` ran on the stored working file, and the layer
state left behind. -/
structure CompleteUploadOutcome where
  response : UploadResponse
  file_deleted : Bool
  layerState : Option LayerState
  deriving DecidableEq

/-- `CompleteUploadView.post` (after field validation): check the stored
file and the group exist, create the layer with status `importing`, run
`import_file_to_layer`, and only on success delete the temporary file and
answer 200; an import failure answers 500 with the captured error and
returns without touching the stored file. -/
def completeUpload (file_exists group_exists : Bool) (gdfRead : Except String GDF)
    (source_crs : Option String) (target_crs : String) (reproj : Geom → Geom)
    (newLayer : LayerState) : CompleteUploadOutcome :=
  if ¬ file_exists then
    { response := .notFound "File not found. It may have expired."
      file_deleted := false, layerState := none }
  else if ¬ group_exists then
    { response := .notFound "Layer group not found"
      file_deleted := false, layerState := none }
  else
    let st0 : LayerState :=
      { newLayer with layer := { newLayer.layer with upload_status := "importing" } }
    match import_file_to_layer st0 gdfRead source_crs target_crs reproj with
    | (st1, .failed e) =>
      { response := .serverError e, file_deleted := false, layerState := some st1 }
    | (st1, .ok n) =>
      { response := .ok n, file_deleted := true, layerState := some st1 }

/-! ## Concrete fixtures used by witnesses and counterexamples -/

/-- Whether an `Except` value is the error case. -/
def isReadError {ε α : Type} : Except ε α → Bool
  | .error _ => true
  | .ok _ => false

/-- A public, empty polygon layer. -/
def st0 : LayerState :=
  { layer :=
      { type_name := some "polygon", feature_count := 0, last_data_update := 0
        upload_status := "pending", upload_error := none, is_public := true }
    features := [], nextUuid := 0, clock := 1 }

/-- The WGS 84 CRS object. -/
def crs4326 : CrsInfo := ⟨"EPSG:4326", some ("EPSG", "4326"), "WGS 84"⟩

/-- A one-row dataset whose only attribute column holds a NaN float. -/
def gdfNan : GDF :=
  { columns := ["geometry", "a"]
    crs := some crs4326
    rows := [{ geometry := some (.point ⟨1, 2⟩), values := [("a", .npFloat .nan)] }] }

/-- A one-row dataset with an ordinary integer attribute. -/
def gdfOne : GDF :=
  { columns := ["geometry", "a"]
    crs := some crs4326
    rows := [{ geometry := some (.point ⟨1, 2⟩), values := [("a", .npInt 5)] }] }

/-- `st0` after one individually created feature (a layer with prior
contents). -/
def stPrior : LayerState := createFeatureRow st0 (.point ⟨0, 0⟩) [] none

/-- A GeoJSON feature whose top-level `id` is the falsy value `0` while
its properties carry `id = "prop-id"`. -/
def fC10 : GJFeature :=
  { id := some (.int 0)
    geometry := some (.point ⟨3, 4⟩)
    properties := some [("id", .str "prop-id")] }

/-- A valid inbound point feature. -/
def validPt (q : ℚ) : GJFeature :=
  { id := none, geometry := some (.point ⟨q, 0⟩), properties := some [] }

/-- An inbound feature whose geometry is `null`. -/
def badFeat : GJFeature := { id := none, geometry := none, properties := some [] }

/-- Three valid features followed by one with a `null` geometry. -/
def doc4 : GJDoc := ⟨"FeatureCollection", [validPt 1, validPt 2, validPt 3, badFeat]⟩

/-- One synthetic stored point feature. -/
def mkPtFeature (i : ℕ) : Feature :=
  { geometry := .point ⟨(i : ℚ), 0⟩, properties := [], feature_id := none, bbox := none }

/-- A public polygon layer holding 1200 features. -/
def poly1200 : LayerState :=
  { layer :=
      { type_name := some "polygon", feature_count := 1200, last_data_update := 0
        upload_status := "complete", upload_error := none, is_public := true }
    features := (List.range 1200).map mkPtFeature
    nextUuid := 0, clock := 0 }

/-- A public polygon layer holding 501 features (one more than a chunk). -/
def stC2 : LayerState :=
  { layer :=
      { type_name := some "polygon", feature_count := 501, last_data_update := 0
        upload_status := "complete", upload_error := none, is_public := true }
    features := (List.range 501).map mkPtFeature
    nextUuid := 0, clock := 0 }

/-- One legal enumeration of `stC2`'s rows: insertion order. -/
def rho1 : List Feature := (List.range 501).map mkPtFeature

/-- Another legal enumeration of the same rows: the last-inserted row
first.  An unordered queryset may return either on any request. -/
def rho2 : List Feature := mkPtFeature 500 :: (List.range 500).map mkPtFeature

/-! ## Shared lemmas -/

/-- `ProjectLayerData.save` never alters the geometry. -/
theorem featureSave_geometry (s : String) (f : Feature) :
    (featureSave s f).geometry = f.geometry := by
  unfold featureSave
  split <;> (dsimp only; split <;> rfl)

/-- A row decoded by the import loop carries neither a bounding box nor a
feature id (those are only derived by `ProjectLayerData.save`, which
`bulk_create` does not run). -/
theorem rowToFeature_fields (cols : List String) (r : SrcRow) (f : Feature)
    (h : rowToFeature cols r = some f) : f.bbox = none ∧ f.feature_id = none := by
  rcases hg : r.geometry with _ | g
  · simp [rowToFeature, hg] at h
  · simp only [rowToFeature, hg] at h
    cases h
    exact ⟨rfl, rfl⟩

/-- `import_file_to_layer` leaves the existing rows as a prefix and
appends only rows built by `rowToFeature` (possibly reprojected), all of
which lack a bounding box and a feature id. -/
theorem import_file_new_features (st : LayerState) (gdfRead : Except String GDF)
    (scrs : Option String) (tcrs : String) (rp : Geom → Geom) :
    ∃ nf : List Feature,
      (import_file_to_layer st gdfRead scrs tcrs rp).1.features = st.features ++ nf ∧
      ∀ f ∈ nf, f.bbox = none ∧ f.feature_id = none := by
  rcases gdfRead with e | gdf
  · exact ⟨[], by simp [import_file_to_layer], by simp⟩
  · cases hc : resolveCrs gdf.crs scrs with
    | none => exact ⟨[], by simp [import_file_to_layer, hc], by simp⟩
    | some c =>
      refine ⟨(if c.descriptor ≠ tcrs then
            gdf.rows.map (fun r => { r with geometry := r.geometry.map rp })
          else gdf.rows).filterMap (rowToFeature gdf.columns), ?_, ?_⟩
      · simp only [import_file_to_layer, hc]
      · intro f hf
        rcases List.mem_filterMap.mp hf with ⟨r, _, hr⟩
        exact rowToFeature_fields _ _ _ hr

/-- When the declared CRS already matches the target, the import runs in
one pass: no reprojection, rows decoded by `rowToFeature` appended, the
count set to the number of appended rows. -/
theorem import_file_features_eq (st : LayerState) (gdf : GDF) (scrs : Option String)
    (tcrs : String) (rp : Geom → Geom) (c : CrsInfo)
    (hc : gdf.crs = some c) (hd : c.descriptor = tcrs) :
    import_file_to_layer st (.ok gdf) scrs tcrs rp =
      ({ st with
          features := st.features ++ gdf.rows.filterMap (rowToFeature gdf.columns)
          layer :=
            { st.layer with
              feature_count := (gdf.rows.filterMap (rowToFeature gdf.columns)).length
              last_data_update := st.clock
              upload_status := "complete" } },
        .ok (gdf.rows.filterMap (rowToFeature gdf.columns)).length) := by
  unfold import_file_to_layer resolveCrs
  simp [hc, hd]

/-! ## C7: CRS parse failures vs the no-CRS outcome -/

/-- C7 counterexample: a parse failure in `get_crs_from_file` does not
surface as a raised `DatasetReadError`; it is returned as the same
`(False, None, message)` success-shaped triple as the no-CRS outcome, so
the two cases agree on `hasCRS = false` and differ only in the message
text. -/
theorem C7_counterexample :
    (get_crs_from_file (.direct "kml" (.error "boom"))).result = (false, none, "boom") ∧
    (get_crs_from_file (.direct "kml" (.ok ⟨["geometry"], none, []⟩))).result =
      (false, none, "No CRS defined in file") ∧
    (get_crs_from_file (.direct "kml" (.error "boom"))).result.1 =
      (get_crs_from_file (.direct "kml" (.ok ⟨["geometry"], none, []⟩))).result.1 := by
  decide

/-- C7 (amended): for every supported file type, a read failure is caught
and returned as the triple `(false, none, message)` — the underlying
message is carried in the name slot, no exception escapes — and the
no-CRS outcome is the structurally identical `(false, none, fixed text)`,
so the two are distinguishable only by message text. -/
theorem C7_amended (ft msg : String)
    (hft : ft = "shp" ∨ ft = "kml" ∨ ft = "sqlite") :
    (get_crs_from_file (.direct ft (.error msg))).result = (false, none, msg) ∧
    (∀ gdf : GDF, gdf.crs = none →
      (get_crs_from_file (.direct ft (.ok gdf))).result =
        (false, none, "No CRS defined in file")) := by
  constructor
  · simp only [get_crs_from_file]
    rw [if_pos hft]
  · intro gdf hg
    simp only [get_crs_from_file]
    rw [if_pos hft]
    simp [crsTriple, hg]

/-- C7 witness: the amended theorem applied at a `kml` read failure and at
a `kml` dataset declaring no CRS. -/
theorem C7_amended_witness :
    ("kml" = "shp" ∨ "kml" = "kml" ∨ "kml" = "sqlite") ∧
    (get_crs_from_file (.direct "kml" (.error "parse error"))).result =
      (false, none, "parse error") ∧
    (⟨["geometry"], none, []⟩ : GDF).crs = none ∧
    (get_crs_from_file (.direct "kml" (.ok ⟨["geometry"], none, []⟩))).result =
      (false, none, "No CRS defined in file") := by
  refine ⟨by decide, (C7_amended "kml" "parse error" (by decide)).1, by decide, ?_⟩
  exact (C7_amended "kml" "any" (by decide)).2 ⟨["geometry"], none, []⟩ (by decide)

/-! ## C8: temp-directory cleanup of the zip-shapefile branch -/

/-- C8 counterexample: on a zipped shapefile whose read raises, the
scratch directory is removed twice — once by the `except` handler and
once by the `finally` block — and the second removal itself raises
(`FileNotFoundError`), whose text then replaces the intended
`Error reading shapefile` message in the returned triple. -/
theorem C8_counterexample :
    get_crs_from_file (.shpZip ⟨true, true, .error "corrupt shapefile"⟩) =
      ⟨(false, none, rmtreeMissingMsg), 2, true, true⟩ ∧
    (get_crs_from_file (.shpZip ⟨true, true, .error "corrupt shapefile"⟩)).rmtree_calls = 2 ∧
    (get_crs_from_file (.shpZip ⟨true, true, .error "corrupt shapefile"⟩)).cleanup_raised = true := by
  decide

/-- C8 (amended): the scratch directory never survives a
`get_crs_from_file` call, but cleanup is not exception-free: on the zip
branch the cleanup raises exactly when extraction or the shapefile read
fails (two `rmtree` calls instead of one); and `extract_shapefile`
removes its directory only on failure, returning it still-existing to
the caller on success. -/
theorem C8_amended :
    (∀ inp : CrsFileInput, (get_crs_from_file inp).dir_removed = true) ∧
    (∀ z : ZipFile,
      (get_crs_from_file (.shpZip z)).cleanup_raised =
        (!z.valid_zip || (z.has_shp && isReadError z.read))) ∧
    (∀ z : ZipFile,
      (get_crs_from_file (.shpZip z)).rmtree_calls =
        (if (!z.valid_zip || (z.has_shp && isReadError z.read)) = true then 2 else 1)) ∧
    (∀ v h : Bool, (extract_shapefile v h).dir_removed = !(v && h)) := by
  refine ⟨?_, ?_, ?_, ?_⟩
  · intro inp
    cases inp with
    | shpZip z =>
      rcases z with ⟨v, hs, r⟩
      cases v <;> cases hs <;> cases r <;> rfl
    | direct ft r =>
      simp only [get_crs_from_file]
      split
      · cases r <;> rfl
      · rfl
  · intro z
    rcases z with ⟨v, hs, r⟩
    cases v <;> cases hs <;> cases r <;> rfl
  · intro z
    rcases z with ⟨v, hs, r⟩
    cases v <;> cases hs <;> cases r <;> rfl
  · intro v h
    cases v <;> cases h <;> rfl

/-! ## C9: deletion of the stored source file after import -/

/-- C9 counterexample: when the import fails (here: the stored file
cannot be read back), `CompleteUploadView.post` answers 500 and returns
without deleting the stored working file. -/
theorem C9_counterexample :
    (completeUpload true true (.error "could not read file") none "EPSG:4326"
        (fun g => g) st0).response = .serverError "could not read file" ∧
    (completeUpload true true (.error "could not read file") none "EPSG:4326"
        (fun g => g) st0).file_deleted = false := by
  decide

/-- C9 (amended): the stored source working file is deleted exactly when
the import succeeds; on every failure outcome (missing file, missing
group, failed import) it is left in place. -/
theorem C9_amended (fe ge : Bool) (gdfRead : Except String GDF)
    (scrs : Option String) (tcrs : String) (rp : Geom → Geom) (nl : LayerState) :
    (completeUpload fe ge gdfRead scrs tcrs rp nl).file_deleted =
      (completeUpload fe ge gdfRead scrs tcrs rp nl).response.isSuccess := by
  cases fe with
  | false => rfl
  | true =>
    cases ge with
    | false => rfl
    | true =>
      unfold completeUpload
      simp only [Bool.not_true, if_neg]
      rcases hres : import_file_to_layer
          { nl with layer := { nl.layer with upload_status := "importing" } }
          gdfRead scrs tcrs rp with ⟨st1, r⟩
      cases r <;> simp [UploadResponse.isSuccess]

/-! ## C6: attribute-value conversion during file import -/

/-- C6 counterexample: importing a row whose attribute column holds a NaN
float stores the NaN as a float property — it is not converted to null
(and nothing is stringified): the only transformation applied is the
numpy `item()` unwrap. -/
theorem C6_counterexample :
    ((import_file_to_layer st0 (.ok gdfNan) none "EPSG:4326" (fun g => g)).1.features.map
        Feature.properties) = [[("a", PVal.float PyFloat.nan)]] ∧
    PVal.float PyFloat.nan ≠ PVal.null := by
  decide

/-- C6 (amended): during file import each non-geometry column value is
stored after numpy-scalar unwrapping only — NaN and infinite floats stay
floats (not null), integers stay integers, null stays null, strings stay
strings, and no other coercion happens; the persisted property bags are
exactly the per-row `convertValue` images of the source columns. -/
theorem C6_amended :
    (∀ v : PyFloat, convertValue (.npFloat v) = .float v) ∧
    (∀ n : ℤ, convertValue (.npInt n) = .int n) ∧
    (convertValue .pyNone = .null) ∧
    (∀ s : String, convertValue (.pyStr s) = .str s) ∧
    (∀ (cols : List String) (r : SrcRow) (g : Geom), r.geometry = some g →
      rowToFeature cols r =
        some
          { geometry := g
            properties := (cols.filter (fun c => c ≠ "geometry")).map
                (fun c => (c, convertValue (rowVal r c)))
            feature_id := none
            bbox := none }) ∧
    (∀ (st : LayerState) (gdf : GDF) (scrs : Option String) (tcrs : String)
        (rp : Geom → Geom) (c : CrsInfo), gdf.crs = some c → c.descriptor = tcrs →
      ((import_file_to_layer st (.ok gdf) scrs tcrs rp).1.features.drop
          st.features.length) = gdf.rows.filterMap (rowToFeature gdf.columns)) := by
  refine ⟨fun _ => rfl, fun _ => rfl, rfl, fun _ => rfl, ?_, ?_⟩
  · intro cols r g hg
    simp [rowToFeature, hg]
  · intro st gdf scrs tcrs rp c hc hd
    rw [import_file_features_eq st gdf scrs tcrs rp c hc hd]
    exact List.drop_left _ _

/-- C6 witness: the amended theorem applied to the one-row NaN dataset
and to its row. -/
theorem C6_amended_witness :
    gdfNan.crs = some crs4326 ∧ crs4326.descriptor = "EPSG:4326" ∧
    ((import_file_to_layer st0 (.ok gdfNan) none "EPSG:4326" (fun g => g)).1.features.drop
        st0.features.length) = gdfNan.rows.filterMap (rowToFeature gdfNan.columns) ∧
    (SrcRow.geometry ⟨some (.point ⟨1, 2⟩), [("a", .npFloat .nan)]⟩ =
      some (.point ⟨1, 2⟩)) ∧
    rowToFeature gdfNan.columns ⟨some (.point ⟨1, 2⟩), [("a", .npFloat .nan)]⟩ =
      some
        { geometry := .point ⟨1, 2⟩
          properties := (gdfNan.columns.filter (fun c => c ≠ "geometry")).map
              (fun c => (c, convertValue (rowVal ⟨some (.point ⟨1, 2⟩),
                [("a", .npFloat .nan)]⟩ c)))
          feature_id := none
          bbox := none } := by
  refine ⟨by decide, by decide, ?_, by decide, ?_⟩
  · exact C6_amended.2.2.2.2.2 st0 gdfNan none "EPSG:4326" (fun g => g) crs4326
      (by decide) (by decide)
  · exact C6_amended.2.2.2.2.1 gdfNan.columns _ (.point ⟨1, 2⟩) (by decide)

/-! ## C4: bounding boxes -/

/-- Extending a box keeps every coordinate it already contains. -/
theorem boxExtend_contains_of (b : Box) (q p : Pt) (h : b.contains p) :
    (boxExtend b q).contains p :=
  ⟨le_trans (min_le_left _ _) h.1, le_trans h.2.1 (le_max_left _ _),
    le_trans (min_le_left _ _) h.2.2.1, le_trans h.2.2.2 (le_max_left _ _)⟩

/-- Extending a box by a coordinate makes it contain that coordinate. -/
theorem boxExtend_contains_self (b : Box) (q : Pt) : (boxExtend b q).contains q :=
  ⟨min_le_right _ _, le_max_right _ _, min_le_right _ _, le_max_right _ _⟩

/-- The envelope fold keeps every coordinate of its starting box. -/
theorem envelopeAux_contains_of (ps : List Pt) :
    ∀ (b : Box) (p : Pt), b.contains p → (envelopeAux b ps).contains p := by
  induction ps with
  | nil => intro b p h; exact h
  | cons q ps ih => intro b p h; exact ih _ _ (boxExtend_contains_of b q p h)

/-- The envelope fold contains every coordinate of its list. -/
theorem envelopeAux_contains_mem (ps : List Pt) :
    ∀ (b : Box) (q : Pt), q ∈ ps → (envelopeAux b ps).contains q := by
  induction ps with
  | nil => intro b q h; cases h
  | cons a ps ih =>
    intro b q h
    rcases List.mem_cons.mp h with rfl | h'
    · exact envelopeAux_contains_of ps _ _ (boxExtend_contains_self b q)
    · exact ih _ _ h'

/-- The axis-aligned envelope of a geometry contains every coordinate. -/
theorem envelope_contains (g : Geom) (p : Pt) (h : p ∈ g.coords) :
    g.envelope.contains p := by
  unfold Geom.envelope
  rcases hc : g.coords with _ | ⟨q, rest⟩
  · rw [hc] at h; cases h
  · rw [hc] at h
    rcases List.mem_cons.mp h with rfl | h'
    · exact envelopeAux_contains_of rest _ _ ⟨le_refl _, le_refl _, le_refl _, le_refl _⟩
    · exact envelopeAux_contains_mem rest _ _ h'

/-- `computeBbox` covers every coordinate of the geometry. -/
theorem computeBbox_contains (g : Geom) (p : Pt) (h : p ∈ g.coords) :
    (computeBbox g).contains p := by
  cases g with
  | point p0 =>
    simp only [Geom.coords, List.mem_singleton] at h
    subst h
    have hb : (0 : ℚ) < pointBuffer := by norm_num [pointBuffer]
    simp only [computeBbox, Box.contains]
    exact ⟨by linarith, by linarith, by linarith, by linarith⟩
  | lineString ps => exact envelope_contains _ _ h
  | polygon rings => exact envelope_contains _ _ h
  | multiPoint ps => exact envelope_contains _ _ h
  | multiLineString ls => exact envelope_contains _ _ h
  | multiPolygon polys => exact envelope_contains _ _ h

/-- C4 counterexample: a feature persisted through the batch file import
(`bulk_create`) has a geometry but no bounding box — `bulk_create` does
not run `ProjectLayerData.save`, so the bbox computation never fires and
the "every persisted feature with a geometry has a covering envelope"
half of the claim fails. -/
theorem C4_counterexample :
    ((import_file_to_layer st0 (.ok gdfOne) none "EPSG:4326" (fun g => g)).1.features.map
        Feature.bbox) = [none] ∧
    ((import_file_to_layer st0 (.ok gdfOne) none "EPSG:4326" (fun g => g)).1.features.map
        Feature.geometry) = [.point ⟨1, 2⟩] := by
  decide

/-- C4 (amended): a feature saved through `ProjectLayerData.save` without
a caller-supplied bbox gets `computeBbox` of its geometry (synthetic
±0.0001 square for points, envelope otherwise), which covers every
coordinate; a caller-supplied bbox is never overwritten; but rows
persisted by the batch file import bypass `save` and are stored with no
bounding box at all. -/
theorem C4_amended :
    (∀ (f : Feature) (s : String), f.bbox = none →
      (featureSave s f).bbox = some (computeBbox f.geometry)) ∧
    (∀ (f : Feature) (s : String) (b : Box), f.bbox = some b →
      (featureSave s f).bbox = some b) ∧
    (∀ (g : Geom) (p : Pt), p ∈ g.coords → (computeBbox g).contains p) ∧
    (∀ (st : LayerState) (gdfRead : Except String GDF) (scrs : Option String)
        (tcrs : String) (rp : Geom → Geom) (f : Feature),
      f ∈ ((import_file_to_layer st gdfRead scrs tcrs rp).1.features.drop
          st.features.length) →
      f.bbox = none) := by
  refine ⟨?_, ?_, computeBbox_contains, ?_⟩
  · intro f s hb
    by_cases ht : truthyOpt f.feature_id <;> simp [featureSave, ht, hb]
  · intro f s b hb
    by_cases ht : truthyOpt f.feature_id <;> simp [featureSave, ht, hb]
  · intro st gdfRead scrs tcrs rp f hf
    rcases import_file_new_features st gdfRead scrs tcrs rp with ⟨nf, hfe, hnf⟩
    rw [hfe, List.drop_left] at hf
    exact (hnf f hf).1

/-- C4 witness: the amended theorem applied at a point feature saved with
no bbox, a feature saved with a caller bbox, a point geometry coordinate,
and the NaN-free one-row import. -/
theorem C4_amended_witness :
    (mkPtFeature 7).bbox = none ∧
    (featureSave "u" (mkPtFeature 7)).bbox = some (computeBbox (mkPtFeature 7).geometry) ∧
    ({ mkPtFeature 7 with bbox := some ⟨0, 0, 9, 9⟩ } : Feature).bbox = some ⟨0, 0, 9, 9⟩ ∧
    (featureSave "u" { mkPtFeature 7 with bbox := some ⟨0, 0, 9, 9⟩ }).bbox =
      some (⟨0, 0, 9, 9⟩ : Box) ∧
    (⟨3, 4⟩ : Pt) ∈ (Geom.lineString [⟨3, 4⟩, ⟨5, 6⟩]).coords ∧
    (computeBbox (.lineString [⟨3, 4⟩, ⟨5, 6⟩])).contains ⟨3, 4⟩ ∧
    ({ geometry := .point ⟨1, 2⟩, properties := [("a", PVal.int 5)]
       feature_id := none, bbox := none } : Feature) ∈
      ((import_file_to_layer st0 (.ok gdfOne) none "EPSG:4326"
          (fun g => g)).1.features.drop st0.features.length) ∧
    ({ geometry := .point ⟨1, 2⟩, properties := [("a", PVal.int 5)]
       feature_id := none, bbox := none } : Feature).bbox = none := by
  refine ⟨by decide, C4_amended.1 _ "u" (by decide), by decide,
    C4_amended.2.1 _ "u" _ (by decide), by decide,
    C4_amended.2.2.1 _ _ (by decide), by decide,
    C4_amended.2.2.2 st0 (.ok gdfOne) none "EPSG:4326" (fun g => g) _ (by decide)⟩

/-! ## C5: the `feature_count` denormalized cache -/

/-- Creating one row through the model save path re-establishes
`feature_count = number of rows`. -/
theorem createFeatureRow_count (st : LayerState) (g : Geom)
    (p : List (String × PVal)) (fid : Option PVal) :
    (createFeatureRow st g p fid).layer.feature_count =
      (createFeatureRow st g p fid).features.length := rfl

/-- The GeoJSON import loop preserves `feature_count = number of rows`
(each created row recounts; an abort returns the state as-is). -/
theorem importLoop_count_inv (fs : List GJFeature) :
    ∀ (st : LayerState) (c : ℕ), st.layer.feature_count = st.features.length →
      (importLoop st c fs).1.layer.feature_count = (importLoop st c fs).1.features.length := by
  induction fs with
  | nil => intro st c h; exact h
  | cons f fs ih =>
    intro st c h
    cases hg : f.geometry with
    | none => simpa [importLoop, hg] using h
    | some g =>
      simp only [importLoop, hg]
      exact ih _ _ (createFeatureRow_count st g (decodeProperties f) (decodeFeatureId f))

/-- C5 counterexample: running the batch file import on a layer that
already holds one feature leaves `feature_count = 1` (the import's own
row count) while two rows are persisted — the count is assigned, not
recomputed, so it diverges as soon as the layer had prior contents. -/
theorem C5_counterexample :
    (import_file_to_layer stPrior (.ok gdfOne) none "EPSG:4326" (fun g => g)).1.layer.feature_count = 1 ∧
    (import_file_to_layer stPrior (.ok gdfOne) none "EPSG:4326" (fun g => g)).1.features.length = 2 := by
  decide

/-- C5 (amended): `feature_count` equals the number of persisted rows
after an individual create, an individual delete, a layer clear, and a
direct GeoJSON import (given it held beforehand); the batch file import
instead sets it to the number of rows it imported, which matches the
persisted total only because its one call site always imports into a
freshly created (empty, zero-count) layer. -/
theorem C5_amended :
    (∀ (st : LayerState) (g : Geom) (p : List (String × PVal)) (fid : Option PVal),
      (createFeatureRow st g p fid).layer.feature_count =
        (createFeatureRow st g p fid).features.length) ∧
    (∀ (st : LayerState) (i : ℕ),
      (destroyFeature st i).layer.feature_count = (destroyFeature st i).features.length) ∧
    (∀ st : LayerState,
      (clear_data st).layer.feature_count = (clear_data st).features.length) ∧
    (∀ (st : LayerState) (doc : GJDoc), st.layer.feature_count = st.features.length →
      (import_geojson st doc).1.layer.feature_count =
        (import_geojson st doc).1.features.length) ∧
    (∀ (st : LayerState) (gdfRead : Except String GDF) (scrs : Option String)
        (tcrs : String) (rp : Geom → Geom),
      st.features = [] → st.layer.feature_count = 0 →
      (import_file_to_layer st gdfRead scrs tcrs rp).1.layer.feature_count =
        (import_file_to_layer st gdfRead scrs tcrs rp).1.features.length) := by
  refine ⟨fun _ _ _ _ => rfl, fun _ _ => rfl, fun _ => rfl, ?_, ?_⟩
  · intro st doc h
    unfold import_geojson
    split
    · exact h
    · have h1 := importLoop_count_inv doc.features st 0 h
      rcases hl : importLoop st 0 doc.features with ⟨st1, r⟩
      rw [hl] at h1
      cases r with
      | error e => simpa using h1
      | ok n => simp [update_feature_count]
  · intro st gdfRead scrs tcrs rp hf h0
    rcases gdfRead with e | gdf
    · simp [import_file_to_layer, h0, hf]
    · cases hc : resolveCrs gdf.crs scrs with
      | none => simp [import_file_to_layer, hc, h0, hf]
      | some c => simp [import_file_to_layer, hc, hf]

/-- C5 witness: the amended theorem applied to the GeoJSON import of
`doc4` into `st0` and the file import of `gdfOne` into `st0`. -/
theorem C5_amended_witness :
    st0.layer.feature_count = st0.features.length ∧
    (import_geojson st0 doc4).1.layer.feature_count =
      (import_geojson st0 doc4).1.features.length ∧
    st0.features = [] ∧ st0.layer.feature_count = 0 ∧
    (import_file_to_layer st0 (.ok gdfOne) none "EPSG:4326" (fun g => g)).1.layer.feature_count =
      (import_file_to_layer st0 (.ok gdfOne) none "EPSG:4326" (fun g => g)).1.features.length :=
  ⟨by decide, C5_amended.2.2.2.1 st0 doc4 (by decide), by decide, by decide,
    C5_amended.2.2.2.2 st0 (.ok gdfOne) none "EPSG:4326" (fun g => g) (by decide) (by decide)⟩

/-! ## C10: feature-id preference during GeoJSON decode -/

/-- C10 counterexample: a feature carrying the falsy top-level id `0` and
`properties.id = "prop-id"` decodes to the property id, not the top-level
id — Python `or` discards falsy top-level ids — and the persisted row
carries the property id. -/
theorem C10_counterexample :
    decodeFeatureId fC10 = some (.str "prop-id") ∧
    decodeFeatureId fC10 ≠ some (.int 0) ∧
    ((import_geojson st0 ⟨"FeatureCollection", [fC10]⟩).1.features.map
        Feature.feature_id) = [some (.str "prop-id")] := by
  decide

/-- C10 (amended): a top-level `id` is preferred over `properties.id`
only when it is truthy; a falsy top-level id (0, empty string) and an
absent id both fall back to the property bag's `id`; `properties`
defaults to the empty mapping when absent. -/
theorem C10_amended :
    (∀ (f : GJFeature) (v : PVal), f.id = some v → truthy v = true →
      decodeFeatureId f = some v) ∧
    (∀ (f : GJFeature) (v : PVal), f.id = some v → truthy v = false →
      decodeFeatureId f = lookupProp (decodeProperties f) "id") ∧
    (∀ f : GJFeature, f.id = none →
      decodeFeatureId f = lookupProp (decodeProperties f) "id") ∧
    (∀ f : GJFeature, f.properties = none → decodeProperties f = []) := by
  refine ⟨?_, ?_, ?_, ?_⟩
  · intro f v hv ht; simp [decodeFeatureId, pyOr, hv, ht]
  · intro f v hv ht; simp [decodeFeatureId, pyOr, hv, ht]
  · intro f hv; simp [decodeFeatureId, pyOr, hv]
  · intro f hp; simp [decodeProperties, hp]

/-- C10 witness: the amended theorem applied to a truthy top-level id, to
the falsy id of `fC10`, and to a feature with no properties member. -/
theorem C10_amended_witness :
    (validPt 1).id = none ∧
    decodeFeatureId (validPt 1) = lookupProp (decodeProperties (validPt 1)) "id" ∧
    fC10.id = some (.int 0) ∧ truthy (.int 0) = false ∧
    decodeFeatureId fC10 = lookupProp (decodeProperties fC10) "id" ∧
    ({ fC10 with id := some (.str "top") } : GJFeature).id = some (.str "top") ∧
    truthy (.str "top") = true ∧
    decodeFeatureId { fC10 with id := some (.str "top") } = some (.str "top") ∧
    ({ fC10 with properties := none } : GJFeature).properties = none ∧
    decodeProperties { fC10 with properties := none } = [] :=
  ⟨by decide, C10_amended.2.2.1 _ (by decide), by decide, by decide,
    C10_amended.2.1 _ (.int 0) (by decide) (by decide), by decide, by decide,
    C10_amended.1 _ (.str "top") (by decide) (by decide), by decide,
    C10_amended.2.2.2 _ (by decide)⟩

/-! ## C1: a feature with unparseable geometry aborts the GeoJSON import -/

/-- C1 counterexample: importing three valid features plus one with a
`null` geometry does not answer `featuresImported = 3`: the per-feature
`except` branch returns a 400 for the whole request at the failing
feature. -/
theorem C1_counterexample :
    (import_geojson st0 doc4).2 = .badRequest geomParseFailMsg ∧
    (import_geojson st0 doc4).2 ≠ .ok 3 3 := by
  decide

/-- Helper for C1: the import loop on a valid prefix followed by a bad
feature creates exactly the rows of the prefix (committed, since the
early `return` exits `transaction.atomic` normally) and reports the
parse error. -/
theorem importLoop_bad (fs : List GJFeature) :
    ∀ (st : LayerState) (c : ℕ) (bad : GJFeature) (rest : List GJFeature),
      (∀ f ∈ fs, (GJFeature.geometry f).isSome) → bad.geometry = none →
      ∃ created : List Feature,
        (importLoop st c (fs ++ bad :: rest)).1.features = st.features ++ created ∧
        created.map Feature.geometry = fs.filterMap GJFeature.geometry ∧
        created.length = fs.length ∧
        (importLoop st c (fs ++ bad :: rest)).2 = .error geomParseFailMsg ∧
        (st.layer.feature_count = st.features.length →
          (importLoop st c (fs ++ bad :: rest)).1.layer.feature_count =
            st.features.length + fs.length) := by
  induction fs with
  | nil =>
    intro st c bad rest _ hbad
    refine ⟨[], by simp [importLoop, hbad], by simp, by simp,
      by simp [importLoop, hbad], ?_⟩
    intro h
    simpa [importLoop, hbad] using h
  | cons f fs ih =>
    intro st c bad rest hval hbad
    obtain ⟨g, hg⟩ := Option.isSome_iff_exists.mp (hval f (by simp))
    have hval' : ∀ f' ∈ fs, (GJFeature.geometry f').isSome := fun f' hf' =>
      hval f' (by simp [hf'])
    set st' := createFeatureRow st g (decodeProperties f) (decodeFeatureId f) with hst'
    obtain ⟨created, h1, h2, h3, h4, h5⟩ := ih st' (c + 1) bad rest hval' hbad
    have hstep : ∀ r : List GJFeature, importLoop st c (f :: r) = importLoop st' (c + 1) r := by
      intro r; simp only [importLoop, hg, hst']
    have hfe : st'.features =
        st.features ++ [featureSave (uuidName st.nextUuid)
          { geometry := g, properties := decodeProperties f
            feature_id := decodeFeatureId f, bbox := none }] := rfl
    refine ⟨featureSave (uuidName st.nextUuid)
        { geometry := g, properties := decodeProperties f
          feature_id := decodeFeatureId f, bbox := none } :: created, ?_, ?_, ?_, ?_, ?_⟩
    · rw [List.cons_append, hstep, h1, hfe]
      simp
    · have hgsave := featureSave_geometry (uuidName st.nextUuid)
        { geometry := g, properties := decodeProperties f
          feature_id := decodeFeatureId f, bbox := none }
      simp [hgsave, h2, List.filterMap_cons, hg]
    · simp [h3]
    · rw [List.cons_append, hstep]
      exact h4
    · intro _
      rw [List.cons_append, hstep, h5 (createFeatureRow_count st g _ _), hfe]
      simp
      omega

/-- C1 (amended): a feature whose geometry cannot be parsed makes
`import_geojson` answer 400 for the whole request, aborting at that
feature; the features decoded before it are persisted (committed by the
early return out of `transaction.atomic`, each row's save recounting the
layer), so with 3 valid features before the bad one the layer ends with
`feature_count = 3` — but the response is the error, not
`featuresImported = 3`. -/
theorem C1_amended (st : LayerState) (fs : List GJFeature) (bad : GJFeature)
    (rest : List GJFeature)
    (hcount : st.layer.feature_count = st.features.length)
    (hval : ∀ f ∈ fs, (GJFeature.geometry f).isSome)
    (hbad : bad.geometry = none) :
    (import_geojson st ⟨"FeatureCollection", fs ++ bad :: rest⟩).2 =
      .badRequest geomParseFailMsg ∧
    (import_geojson st ⟨"FeatureCollection", fs ++ bad :: rest⟩).1.features.length =
      st.features.length + fs.length ∧
    (import_geojson st ⟨"FeatureCollection", fs ++ bad :: rest⟩).1.layer.feature_count =
      st.features.length + fs.length ∧
    ((import_geojson st ⟨"FeatureCollection", fs ++ bad :: rest⟩).1.features.drop
        st.features.length).map Feature.geometry = fs.filterMap GJFeature.geometry := by
  obtain ⟨created, h1, h2, h3, h4, h5⟩ := importLoop_bad fs st 0 bad rest hval hbad
  have hmatch : import_geojson st ⟨"FeatureCollection", fs ++ bad :: rest⟩ =
      ((importLoop st 0 (fs ++ bad :: rest)).1, .badRequest geomParseFailMsg) := by
    unfold import_geojson
    simp only [ne_eq, ite_not, if_true]
    rcases hl : importLoop st 0 (fs ++ bad :: rest) with ⟨st1, r⟩
    rw [hl] at h4
    cases r with
    | error e => simp at h4; rw [h4]
    | ok n => simp at h4
  rw [hmatch]
  refine ⟨rfl, ?_, ?_, ?_⟩
  · rw [h1]; simp [h3]
  · exact h5 hcount
  · rw [h1, List.drop_left]
    exact h2

/-- C1 witness: the amended theorem applied to `st0` and the document of
three valid point features followed by one `null`-geometry feature. -/
theorem C1_amended_witness :
    st0.layer.feature_count = st0.features.length ∧
    (∀ f ∈ [validPt 1, validPt 2, validPt 3], (GJFeature.geometry f).isSome) ∧
    badFeat.geometry = none ∧
    ((import_geojson st0 ⟨"FeatureCollection",
        [validPt 1, validPt 2, validPt 3] ++ badFeat :: []⟩).2 =
      .badRequest geomParseFailMsg ∧
    (import_geojson st0 ⟨"FeatureCollection",
        [validPt 1, validPt 2, validPt 3] ++ badFeat :: []⟩).1.layer.feature_count =
      st0.features.length + 3) :=
  ⟨by decide, by decide, by decide,
    (C1_amended st0 [validPt 1, validPt 2, validPt 3] badFeat [] (by decide)
        (by decide) (by decide)).1,
    (C1_amended st0 [validPt 1, validPt 2, validPt 3] badFeat [] (by decide)
        (by decide) (by decide)).2.2.1⟩

/-! ## C3: chunk ids below 1 -/

/-- Every chunk-size policy value is positive. -/
theorem getChunkSize_pos (l : Layer) : 0 < getChunkSizeForLayer l := by
  unfold getChunkSizeForLayer
  cases l.type_name with
  | none => norm_num
  | some tn =>
    dsimp only
    split
    · norm_num
    · split <;> norm_num

/-- A chunk id below 1 drives the handler into a negative queryset slice,
whose `ValueError` is not caught: the outcome is the 500-class
`serverError`, produced before any feature row is touched. -/
theorem layerDataGet_neg (st : LayerState) (c : ℤ) (hc : c < 1) :
    layerDataGet (some st) true (some c) = .serverError negIdxMsg := by
  have hS : (0 : ℤ) < (getChunkSizeForLayer st.layer : ℤ) := by
    exact_mod_cast getChunkSize_pos st.layer
  have hneg : (c - 1) * (getChunkSizeForLayer st.layer : ℤ) < 0 :=
    mul_neg_of_neg_of_pos (by omega) hS
  simp [layerDataGet, layerDataGetOrd, qsSlice, hneg]

/-- C3 counterexample: requesting chunk 0 of an existing public layer
does not yield the claimed 400 `InvalidChunk`; the negative slice raises
an uncaught `ValueError` and the request dies as a 500 server error. -/
theorem C3_counterexample :
    layerDataGet (some st0) true (some 0) = .serverError negIdxMsg ∧
    (layerDataGet (some st0) true (some 0)).isBadRequest = false := by
  decide

/-- C3 (amended): for `chunkId < 1` the handler computes a negative slice
offset and Django's queryset refuses negative indexing with an uncaught
`ValueError`, so the request fails as a 500 server error (only a
non-integer `chunk_id` yields a 400); the outcome is independent of the
layer's stored features — none are fetched — and no state is mutated. -/
theorem C3_amended (st : LayerState) (c : ℤ) (hc : c < 1) :
    layerDataGet (some st) true (some c) = .serverError negIdxMsg ∧
    (∀ fs : List Feature,
      layerDataGet (some { st with features := fs }) true (some c) =
        .serverError negIdxMsg) ∧
    layerDataGet (some st) true none = .badRequest "Invalid chunk_id" := by
  refine ⟨layerDataGet_neg st c hc, fun fs => layerDataGet_neg _ c hc, ?_⟩
  simp [layerDataGet, layerDataGetOrd]

/-- C3 witness: the amended theorem applied at chunk id 0 of `st0`. -/
theorem C3_amended_witness :
    (0 : ℤ) < 1 ∧
    layerDataGet (some st0) true (some 0) = .serverError negIdxMsg :=
  ⟨by decide, (C3_amended st0 0 (by decide)).1⟩

/-! ## C2: chunk coverage -/

/-- Peeling one chunk off a ceiling division: for a nonempty remainder,
`ceil(m/S) = ceil((m-S)/S) + 1`. -/
theorem ceil_div_succ (S m : ℕ) (hS : 0 < S) (hm : 0 < m) :
    (m + S - 1) / S = (m - S + S - 1) / S + 1 := by
  rcases le_or_lt m S with h | h
  · have h1 : m - S = 0 := by omega
    rw [h1]
    have h2 : (0 + S - 1) / S = 0 := Nat.div_eq_of_lt (by omega)
    rw [h2]
    exact Nat.div_eq_of_lt_le (by omega) (by omega)
  · have heq : m + S - 1 = (m - S + S - 1) + S := by omega
    rw [heq, Nat.add_div_right _ hS]

/-- The size-`S` slices at offsets `0, S, 2S, …` up to `ceil(N/S)` chunks
concatenate back to the original list: no duplicates, no gaps, order
preserved. -/
theorem chunks_join {α : Type} (S : ℕ) (hS : 0 < S) (l : List α) :
    ((List.range ((l.length + S - 1) / S)).map
        (fun i => (l.drop (i * S)).take S)).flatten = l := by
  suffices H : ∀ (n : ℕ) (l : List α), l.length = n →
      ((List.range ((l.length + S - 1) / S)).map
          (fun i => (l.drop (i * S)).take S)).flatten = l by
    exact H l.length l rfl
  intro n
  induction n using Nat.strong_induction_on with
  | _ n ih =>
    intro l hl
    cases l with
    | nil =>
      have h0 : (0 + S - 1) / S = 0 := Nat.div_eq_of_lt (by omega)
      simp [h0]
    | cons a tl =>
      have hm : 0 < (a :: tl).length := by simp
      rw [ceil_div_succ S _ hS hm, List.range_succ_eq_map]
      simp only [List.map_cons, List.flatten_cons, List.map_map]
      have hdrop0 : ((a :: tl).drop (0 * S)).take S = (a :: tl).take S := by simp
      rw [hdrop0]
      have hcomp : ((fun i : ℕ => ((a :: tl).drop (i * S)).take S) ∘ Nat.succ) =
          (fun i : ℕ => (((a :: tl).drop S).drop (i * S)).take S) := by
        funext i
        simp only [Function.comp_apply]
        rw [List.drop_drop, Nat.succ_mul, Nat.add_comm]
      rw [hcomp]
      have hlen : ((a :: tl).drop S).length = (a :: tl).length - S := by simp
      have hrec := ih ((a :: tl).length - S) (by rw [← hl]; omega) ((a :: tl).drop S) hlen
      rw [hlen] at hrec
      rw [hrec, List.take_append_drop]

/-- The chunked-read handler, for an authenticated request whose query
enumerates the rows as `rows` and a chunk id `k ≥ 1`: a 200 whose
features are exactly the slice `[(k-1)·S, k·S)` of that enumeration and
whose `next_chunk` is present exactly while `k < ceil(N/S)` of the true
row count. -/
theorem layerDataGetOrd_ok (st : LayerState) (rows : List Feature) (k : ℕ)
    (hk : 1 ≤ k) :
    layerDataGetOrd (some st) rows true (some (k : ℤ)) =
      .ok { features := (chunkSliceOrd st rows k).map encodeFeature
            chunk_info :=
              { chunk_id := (k : ℤ)
                features_count := (chunkSliceOrd st rows k).length
                total_count := st.features.length
                next_chunk :=
                  if (k : ℤ) < (ceilChunks st : ℤ) then some ((k : ℤ) + 1)
                  else none } } := by
  have hstart : ((k : ℤ) - 1) * (getChunkSizeForLayer st.layer : ℤ) =
      (((k - 1) * getChunkSizeForLayer st.layer : ℕ) : ℤ) := by
    rw [Nat.cast_mul, Nat.cast_sub hk]
    norm_num
  have hq : qsSlice rows (((k : ℤ) - 1) * (getChunkSizeForLayer st.layer : ℤ))
      (((k : ℤ) - 1) * (getChunkSizeForLayer st.layer : ℤ) +
        (getChunkSizeForLayer st.layer : ℤ)) = .ok (chunkSliceOrd st rows k) := by
    unfold qsSlice
    rw [if_neg]
    · rw [hstart, ← Nat.cast_add, Int.toNat_natCast, Int.toNat_natCast,
        ← List.take_drop, chunkSliceOrd]
    · rw [hstart, ← Nat.cast_add]
      push_neg
      exact ⟨Int.natCast_nonneg _, Int.natCast_nonneg _⟩
  simp only [layerDataGetOrd, hq]
  simp [ceilChunks]

/-- The fixed-order instance: under the insertion-order enumeration the
handler serves the slice `[(k-1)·S, k·S)` of the stored list. -/
theorem layerDataGet_ok (st : LayerState) (k : ℕ) (hk : 1 ≤ k) :
    layerDataGet (some st) true (some (k : ℤ)) =
      .ok { features := (chunkSlice st k).map encodeFeature
            chunk_info :=
              { chunk_id := (k : ℤ)
                features_count := (chunkSlice st k).length
                total_count := st.features.length
                next_chunk :=
                  if (k : ℤ) < (ceilChunks st : ℤ) then some ((k : ℤ) + 1)
                  else none } } :=
  layerDataGetOrd_ok st st.features k hk

set_option maxRecDepth 100000 in
/-- C2 counterexample: the queryset is unordered, so two chunk requests
against the same 501-row polygon layer may observe different legal
enumerations of the rows (`rho1`, `rho2`, both permutations of the stored
set).  Chunk 1 under `rho1` and chunk 2 under `rho2` — all chunks
`1..ceil(501/500) = 2` — then serve feature 499 twice and feature 500
never: the union is not duplicate-free, not gap-free, and in no stable
creation order, refuting the claimed partition. -/
theorem C2_counterexample :
    List.Perm rho1 stC2.features ∧
    List.Perm rho2 stC2.features ∧
    ceilChunks stC2 = 2 ∧
    layerDataGetOrd (some stC2) rho1 true (some 1) =
      .ok { features := ((List.range 500).map mkPtFeature).map encodeFeature
            chunk_info := { chunk_id := 1, features_count := 500
                            total_count := 501, next_chunk := some 2 } } ∧
    layerDataGetOrd (some stC2) rho2 true (some 2) =
      .ok { features := [encodeFeature (mkPtFeature 499)]
            chunk_info := { chunk_id := 2, features_count := 1
                            total_count := 501, next_chunk := none } } ∧
    encodeFeature (mkPtFeature 499) ∈
      ((List.range 500).map mkPtFeature).map encodeFeature ∧
    encodeFeature (mkPtFeature 500) ∉
      ((List.range 500).map mkPtFeature).map encodeFeature ∧
    encodeFeature (mkPtFeature 500) ∉ [encodeFeature (mkPtFeature 499)] := by
  refine ⟨?_, ?_, by decide, by decide, by decide, by decide, by decide, by decide⟩
  · exact List.Perm.refl _
  · have h : stC2.features = ((List.range 500).map mkPtFeature) ++ [mkPtFeature 500] := by
      show (List.range 501).map mkPtFeature = _
      rw [show (501 : ℕ) = 500 + 1 from rfl, List.range_succ, List.map_append]
      rfl
    rw [h]
    exact (List.perm_append_singleton _ _).symm

/-- C2 (amended): within one request, chunk `k` serves the slice
`[(k-1)·S, k·S)` of the rows in whatever order that request's query
enumerates them, with `next_chunk` computed from `ceil(N/S)` of the true
row count; when every request observes one and the same enumeration the
chunks `1..ceil(N/S)` concatenate to exactly the N stored features —
no duplicates, no gaps, that order preserved — and Scenario D's counts
for the 1200-feature polygon layer hold (500 features and
`next_chunk = 2` for chunk 1; 200 features and no `next_chunk` for chunk
3).  The code itself, however, orders the queryset neither in the model
`Meta` nor with `order_by`, so a single cross-request enumeration — and
with it the claimed stable-creation-order partition — is not
guaranteed. -/
theorem C2_chunk_partition :
    (∀ (st : LayerState) (rows : List Feature) (k : ℕ), 1 ≤ k →
      layerDataGetOrd (some st) rows true (some (k : ℤ)) =
        .ok { features := (chunkSliceOrd st rows k).map encodeFeature
              chunk_info :=
                { chunk_id := (k : ℤ)
                  features_count := (chunkSliceOrd st rows k).length
                  total_count := st.features.length
                  next_chunk :=
                    if (k : ℤ) < (ceilChunks st : ℤ) then some ((k : ℤ) + 1)
                    else none } }) ∧
    (∀ (st : LayerState) (rows : List Feature),
      rows.length = st.features.length →
      ((List.range (ceilChunks st)).map (fun i => chunkSliceOrd st rows (i + 1))).flatten =
        rows) ∧
    (∀ (st : LayerState) (auth : Bool) (arg : Option ℤ),
      layerDataGet (some st) auth arg = layerDataGetOrd (some st) st.features auth arg) ∧
    ((chunkSlice poly1200 1).length = 500 ∧
      (chunkSlice poly1200 3).length = 200 ∧
      ceilChunks poly1200 = 3 ∧
      layerDataGet (some poly1200) true (some 1) =
        .ok { features := (chunkSlice poly1200 1).map encodeFeature
              chunk_info := { chunk_id := 1, features_count := 500
                              total_count := 1200, next_chunk := some 2 } } ∧
      layerDataGet (some poly1200) true (some 3) =
        .ok { features := (chunkSlice poly1200 3).map encodeFeature
              chunk_info := { chunk_id := 3, features_count := 200
                              total_count := 1200, next_chunk := none } }) := by
  have hS : getChunkSizeForLayer poly1200.layer = 500 := by rfl
  have hlen : poly1200.features.length = 1200 := by
    simp [poly1200]
  have hceil : ceilChunks poly1200 = 3 := by
    rw [ceilChunks, hS, hlen]
  have hc1 : (chunkSlice poly1200 1).length = 500 := by
    rw [chunkSlice, chunkSliceOrd, hS]
    simp [hlen]
  have hc3 : (chunkSlice poly1200 3).length = 200 := by
    rw [chunkSlice, chunkSliceOrd, hS]
    simp [hlen]
  refine ⟨layerDataGetOrd_ok, ?_, fun _ _ _ => rfl, hc1, hc3, hceil, ?_, ?_⟩
  · intro st rows hrows
    have hj := chunks_join (getChunkSizeForLayer st.layer)
      (getChunkSize_pos st.layer) rows
    rw [hrows] at hj
    have hfun : (fun i : ℕ => chunkSliceOrd st rows (i + 1)) =
        (fun i : ℕ => (rows.drop (i * getChunkSizeForLayer st.layer)).take
          (getChunkSizeForLayer st.layer)) := by
      funext i
      rw [chunkSliceOrd, Nat.add_sub_cancel]
    rw [ceilChunks, hfun]
    exact hj
  · have e1 := layerDataGet_ok poly1200 1 (le_refl 1)
    rw [hc1, hlen, hceil] at e1
    simpa using e1
  · have e3 := layerDataGet_ok poly1200 3 (by norm_num)
    rw [hc3, hlen, hceil] at e3
    simpa using e3

/-- C2 witness: the amended theorem applied at chunk 1 of the empty
polygon layer `st0` under the empty enumeration, and the fixed-order
partition over it. -/
theorem C2_chunk_partition_witness :
    1 ≤ 1 ∧
    layerDataGetOrd (some st0) [] true (some ((1 : ℕ) : ℤ)) =
      .ok { features := (chunkSliceOrd st0 [] 1).map encodeFeature
            chunk_info :=
              { chunk_id := ((1 : ℕ) : ℤ)
                features_count := (chunkSliceOrd st0 [] 1).length
                total_count := st0.features.length
                next_chunk :=
                  if ((1 : ℕ) : ℤ) < (ceilChunks st0 : ℤ) then some (((1 : ℕ) : ℤ) + 1)
                  else none } } ∧
    ([] : List Feature).length = st0.features.length ∧
    ((List.range (ceilChunks st0)).map (fun i => chunkSliceOrd st0 [] (i + 1))).flatten =
      ([] : List Feature) :=
  ⟨le_refl 1, C2_chunk_partition.1 st0 [] 1 (le_refl 1), by decide,
    C2_chunk_partition.2.1 st0 [] (by decide)⟩

end WebGis
